import Mathlib

/- Verification development for the AI-Insights Obsidian plugin (src/main.ts).
   The TypeScript source is shallowly embedded below: settings, model
   resolution, settings loading, the run workflow, the delete workflow and the
   settings-tab handlers become pure Lean functions over explicit environments
   (active note content, prompt file availability, the HTTP response, the
   confirm dialog answer) and an explicit plugin state (run flag, status bar
   text, ribbon icon). Side effects of one invocation (notices shown, status
   texts set, network calls issued, the resulting document content) are
   returned as data so that theorems can speak about them. -/

namespace AIInsights

/- JavaScript whitespace class, as matched by the regex token for whitespace
   and trimmed by String.prototype.trim: tab, line feed, vertical tab, form
   feed, carriage return, space, and the Unicode space separators plus BOM. -/
def isWs (c : Char) : Bool :=
  c = '\t' || c = '\n' || c = '\u000B' || c = '\u000C' || c = '\r' || c = ' '
  || c = '\u00A0' || c = '\u1680'
  || ('\u2000' ≤ c && c ≤ '\u200A')
  || c = '\u2028' || c = '\u2029' || c = '\u202F' || c = '\u205F'
  || c = '\u3000' || c = '\uFEFF'

/- JavaScript String.prototype.trim: drop leading and trailing whitespace. -/
def jsTrim (s : String) : String :=
  ⟨((s.data.dropWhile isWs).reverse.dropWhile isWs).reverse⟩

inductive PromptMode
  | inline
  | file
deriving DecidableEq, Repr

/- The ChatAppendSettings record of src/main.ts (field openaiApiKey named as
   in the source; the spec calls it apiKey). -/
structure ChatAppendSettings where
  openaiApiKey : String
  model : String
  customModel : String
  promptMode : PromptMode
  inlinePrompt : String
  promptFilePath : String
  addHeader : Bool
  headerText : String
  maxOutputTokens : Nat
deriving DecidableEq, Repr

/- DEFAULT_PROMPT of src/main.ts, kept verbatim. -/
def DEFAULT_PROMPT : String :=
  "You are an intelligent reflective assistant specialized in Zettelkasten-style thinking and Cyclecasting.\nThe following content is an Obsidian note.\nUnderstand these note types first:\n\nPermanent note: one atomic idea, written in my own words, self-contained, meant to be linked.\n\nBook/Literature note: captures multiple concepts from a source. These are not atomic but can be split into permanent notes later.\n\nFleeting note: quick captures that may or may not become permanent.\n\nStructure note: organizes or connects other notes.\n\nProject note: holds evolving work or context for projects.\n\n1. Gaps, Questions, and Further Exploration\n\nIdentify gaps, open questions, or directions to explore that would deepen the understanding of the note.\n\nIf it’s a book/literature note, focus here on conceptual gaps — not splitting into permanent notes yet.\n\nLimit to the 3–4 most valuable questions or areas of exploration.\n\nIf an answer is straightforward, provide a short hint or pointer (don’t leave it blank).\n\nAvoid repeating ideas that belong to section 2.\n\n2. Usefulness, Role & Future Potential\n\nIdentify what type of note this currently is.\n\nIf it’s a book/literature note, explain how it could be split into atomic permanent notes later, and why that would be valuable.\n\nIf it’s already permanent, evaluate its clarity, atomicity, and potential links.\n\nSuggest potential use cases (e.g., connectors, writing seeds, research foundations, Cyclecasting mid-use cases).\n\nKeep this concise but thoughtful.\n\nTone: Reflective, intelligent, crisp.\nAlways give something for both sections.\nDon’t repeat the same insight in both sections.\nAim for clear, structured answers rather than long rambles."

/- DEFAULTS of src/main.ts. -/
def DEFAULTS : ChatAppendSettings :=
  { openaiApiKey := ""
    model := "gpt-4o-mini"
    customModel := ""
    promptMode := PromptMode.inline
    inlinePrompt := DEFAULT_PROMPT
    promptFilePath := "Prompts/prompt.md"
    addHeader := true
    headerText := "## Insights"
    maxOutputTokens := 800 }

/- A previously persisted settings record, as returned by loadData: any subset
   of the fields may be present (JSON round-tripping never stores undefined,
   so a field is either present with a value or absent). -/
structure PartialSettings where
  openaiApiKey : Option String := none
  model : Option String := none
  customModel : Option String := none
  promptMode : Option PromptMode := none
  inlinePrompt : Option String := none
  promptFilePath : Option String := none
  addHeader : Option Bool := none
  headerText : Option String := none
  maxOutputTokens : Option Nat := none
deriving DecidableEq, Repr

/- Object.assign({}, DEFAULTS, await this.loadData()) in onload: a field
   present in the persisted record wins, an absent field falls back to the
   default; loadData returning null leaves DEFAULTS untouched. -/
def loadSettings (p : Option PartialSettings) : ChatAppendSettings :=
  match p with
  | none => DEFAULTS
  | some q =>
      { openaiApiKey := q.openaiApiKey.getD DEFAULTS.openaiApiKey
        model := q.model.getD DEFAULTS.model
        customModel := q.customModel.getD DEFAULTS.customModel
        promptMode := q.promptMode.getD DEFAULTS.promptMode
        inlinePrompt := q.inlinePrompt.getD DEFAULTS.inlinePrompt
        promptFilePath := q.promptFilePath.getD DEFAULTS.promptFilePath
        addHeader := q.addHeader.getD DEFAULTS.addHeader
        headerText := q.headerText.getD DEFAULTS.headerText
        maxOutputTokens := q.maxOutputTokens.getD DEFAULTS.maxOutputTokens }

/- resolveModel of src/main.ts:
   model === Custom sentinel and customModel.trim().length > 0
     gives customModel.trim(), otherwise the model field unchanged. -/
def resolveModel (s : ChatAppendSettings) : String :=
  if s.model = "Custom…" ∧ (jsTrim s.customModel).length > 0 then
    jsTrim s.customModel
  else
    s.model

/- The response JSON, restricted to the shape the source reads:
   data.output_text, data.output[0].content[0].text (each level possibly
   absent or null, which Option none models), and the serialized whole body
   used by JSON.stringify(data, null, 2) as the last fallback. -/
structure ContentItem where
  text : Option String
deriving DecidableEq, Repr

structure OutputItem where
  content : Option (List ContentItem)
deriving DecidableEq, Repr

structure ApiData where
  output_text : Option String
  output : Option (List OutputItem)
  stringified : String
deriving DecidableEq, Repr

/- The optional chain data?.output?.[0]?.content?.[0]?.text. -/
def nestedOutputText (d : ApiData) : Option String :=
  match d.output with
  | none => none
  | some os =>
      match os.head? with
      | none => none
      | some item =>
          match item.content with
          | none => none
          | some cs =>
              match cs.head? with
              | none => none
              | some c => c.text

/- resultText = data.output_text ?? data?.output?.[0]?.content?.[0]?.text
   ?? JSON.stringify(data, null, 2). Nullish coalescing falls through only on
   null or undefined (Option none here), never on an empty string. -/
def extractResultText (d : ApiData) : String :=
  match d.output_text with
  | some t => t
  | none =>
      match nestedOutputText d with
      | some t => t
      | none => d.stringified

/- The appended block of the success path: two newlines, the optional header
   line, the result text, one trailing newline. -/
def buildBlock (addHeader : Bool) (headerText resultText : String) : String :=
  if addHeader then
    "\n\n" ++ headerText ++ "\n" ++ resultText ++ "\n"
  else
    "\n\n" ++ resultText ++ "\n"

/- Outcome of the one fetch call: the promise rejects (or res.json() throws),
   or a response with an HTTP status and, for the success path, parsed data. -/
inductive FetchOutcome
  | throws
  | respond (status : Nat) (data : ApiData)
deriving DecidableEq, Repr

/- Host-side inputs of one invocation: the active note content (none when no
   note is focused), whether the configured prompt file path resolves to a
   TFile and its content, what the network returns, and the answer the user
   gives to the window.confirm dialog of the delete workflow. -/
structure Env where
  activeNote : Option String
  promptFileExists : Bool
  promptFileContent : String
  fetchResult : FetchOutcome
  confirmDelete : Bool
deriving DecidableEq, Repr

/- The mutable plugin state touched by setLoading: the isRunning flag, the
   status bar text and the ribbon icon with its spin class. -/
structure PluginState where
  isRunning : Bool
  statusText : String
  ribbonIcon : String
  spinning : Bool
deriving DecidableEq, Repr

def statusIdle : String := "Chat Append: idle"

def statusBusy : String := "Chat Append: Running…"

/- State after setLoading(true). -/
def loadingState : PluginState :=
  { isRunning := true, statusText := statusBusy, ribbonIcon := "loader-2", spinning := true }

/- State after setLoading(false), which the finally block always runs: flag
   cleared, icon restored, status text reset to idle. -/
def idleState : PluginState :=
  { isRunning := false, statusText := statusIdle, ribbonIcon := "stars", spinning := false }

/- One outbound POST to the OpenAI responses endpoint, with the request body
   fields the source sends. -/
structure FetchCall where
  model : String
  systemPrompt : String
  userContent : String
  maxTokens : Nat
deriving DecidableEq, Repr

inductive RunOutcome
  | noActiveNote
  | alreadyActive
  | promptFileNotFound
  | missingApiKey
  | missingModel
  | requestFailed
  | unexpectedError
  | success
deriving DecidableEq, Repr

/- Everything one invocation of the run workflow did: which terminal path it
   took, the plugin state at return, the document content at return (none when
   there was no active note), the network calls issued, every status bar text
   set (in order), and every Notice shown (in order). -/
structure RunResult where
  outcome : RunOutcome
  state : PluginState
  doc : Option String
  fetchCalls : List FetchCall
  statusHistory : List String
  notices : List String
deriving DecidableEq, Repr

/- runOnActiveNote of src/main.ts. The editor path of the success case
   (editor.replaceRange at line lineCount) inserts at end of document, which
   coincides with vault.append of the whole note, so both are modeled as one
   append. The finally block always runs setLoading(false), so every path
   past the active-note check ends in idleState with statusIdle appended to
   the status history. -/
def runOnActiveNote (s : ChatAppendSettings) (env : Env) (st : PluginState) : RunResult :=
  match env.activeNote with
  | none =>
      { outcome := RunOutcome.noActiveNote, state := st, doc := none
        fetchCalls := [], statusHistory := [], notices := ["No active note"] }
  | some original =>
      if s.promptMode = PromptMode.file ∧ env.promptFileExists = false then
        { outcome := RunOutcome.promptFileNotFound, state := idleState, doc := some original
          fetchCalls := []
          statusHistory := [statusBusy, "Chat Append: error (prompt file)", statusIdle]
          notices := ["Prompt file not found: " ++ s.promptFilePath] }
      else
        let prompt := if s.promptMode = PromptMode.file then env.promptFileContent else s.inlinePrompt
        if s.openaiApiKey = "" then
          { outcome := RunOutcome.missingApiKey, state := idleState, doc := some original
            fetchCalls := []
            statusHistory := [statusBusy, "Chat Append: error (no API key)", statusIdle]
            notices := ["Set your OpenAI API key in plugin settings."] }
        else
          let model := resolveModel s
          if model = "" then
            { outcome := RunOutcome.missingModel, state := idleState, doc := some original
              fetchCalls := []
              statusHistory := [statusBusy, "Chat Append: error (no model)", statusIdle]
              notices := ["Select a model (or enter a custom model)."] }
          else
            let call : FetchCall :=
              { model := model, systemPrompt := prompt, userContent := original
                maxTokens := s.maxOutputTokens }
            match env.fetchResult with
            | FetchOutcome.throws =>
                { outcome := RunOutcome.unexpectedError, state := idleState, doc := some original
                  fetchCalls := [call]
                  statusHistory := [statusBusy, "Chat Append: error (see console)", statusIdle]
                  notices := ["OpenAI request failed (see console)."] }
            | FetchOutcome.respond status data =>
                if 200 ≤ status ∧ status ≤ 299 then
                  let block := buildBlock s.addHeader s.headerText (extractResultText data)
                  { outcome := RunOutcome.success, state := idleState
                    doc := some (original ++ block)
                    fetchCalls := [call]
                    statusHistory := [statusBusy, "Chat Append: done ✔", statusIdle]
                    notices := ["Appended ChatGPT output."] }
                else
                  { outcome := RunOutcome.requestFailed, state := idleState, doc := some original
                    fetchCalls := [call]
                    statusHistory := [statusBusy, "Chat Append: error (request)",
                      "Chat Append: error (see console)", statusIdle]
                    notices := ["OpenAI request failed (see console)."] }

/- The ribbon icon and command callbacks of onload: if isRunning, show the
   Already running notice and return before calling runOnActiveNote. -/
def triggerRun (s : ChatAppendSettings) (env : Env) (st : PluginState) : RunResult :=
  if st.isRunning then
    { outcome := RunOutcome.alreadyActive, state := st, doc := env.activeNote
      fetchCalls := [], statusHistory := [], notices := ["Already running…"] }
  else
    runOnActiveNote s env st

/- Matching of the compiled deletion pattern. escapeRegex backslash-escapes
   every regex metacharacter of the header, so the header participates as a
   literal string; the pattern around it is fixed: an optional newline, a
   whitespace run, the header, a whitespace run, a newline, then everything
   to end of input. Since a newline is itself whitespace, the pattern can
   start at position i exactly when some whitespace run at i is followed by
   the literal header, which is followed by a whitespace run and a newline;
   the match then always extends to end of input. -/
def afterHeaderMatch : List Char → Bool
  | [] => false
  | c :: cs => if c = '\n' then true else if isWs c then afterHeaderMatch cs else false

def matchFrom (h : List Char) : List Char → Bool
  | [] => false
  | c :: cs =>
      (h.isPrefixOf (c :: cs) && afterHeaderMatch ((c :: cs).drop h.length))
      || (isWs c && matchFrom h cs)

/- Index of the leftmost position where the pattern matches, the position a
   JavaScript regex search finds first. -/
def findMatchStart (h : List Char) : List Char → Option Nat
  | [] => none
  | c :: cs =>
      if matchFrom h (c :: cs) then some 0 else (findMatchStart h cs).map (· + 1)

/- pattern.test(content). -/
def patternTest (h content : String) : Bool :=
  (findMatchStart h.data content.data).isSome

/- content.replace(pattern, emptyString): the single leftmost match, which
   always reaches end of input, is removed, leaving the prefix before it. -/
def replaceWithEmpty (h content : String) : String :=
  match findMatchStart h.data content.data with
  | none => content
  | some i => ⟨content.data.take i⟩

inductive DeleteOutcome
  | noActiveNote
  | alreadyActive
  | emptyHeader
  | noInsightsFound
  | cancelled
  | deleted
deriving DecidableEq, Repr

structure DeleteResult where
  outcome : DeleteOutcome
  state : PluginState
  doc : Option String
  statusHistory : List String
  notices : List String
deriving DecidableEq, Repr

def statusDeleting : String := "Chat Append: Deleting insights…"

/- deleteInsightsOnActiveNote of src/main.ts. The no-insights and declined
   branches set the idle status explicitly and then the finally block sets it
   again, hence the doubled idle entry in their histories. -/
def deleteInsightsOnActiveNote (s : ChatAppendSettings) (env : Env) (st : PluginState) :
    DeleteResult :=
  match env.activeNote with
  | none =>
      { outcome := DeleteOutcome.noActiveNote, state := st, doc := none
        statusHistory := [], notices := ["No active note"] }
  | some content =>
      let header := jsTrim s.headerText
      if header = "" then
        { outcome := DeleteOutcome.emptyHeader, state := st, doc := some content
          statusHistory := [], notices := ["Header text is empty in settings."] }
      else if patternTest header content = false then
        { outcome := DeleteOutcome.noInsightsFound, state := idleState, doc := some content
          statusHistory := [statusBusy, statusDeleting, statusIdle, statusIdle]
          notices := ["No insights section found."] }
      else if env.confirmDelete = false then
        { outcome := DeleteOutcome.cancelled, state := idleState, doc := some content
          statusHistory := [statusBusy, statusDeleting, statusIdle, statusIdle]
          notices := [] }
      else
        { outcome := DeleteOutcome.deleted, state := idleState
          doc := some (replaceWithEmpty header content)
          statusHistory := [statusBusy, statusDeleting, "Chat Append: done ✔", statusIdle]
          notices := ["Insights deleted."] }

/- The eraser ribbon icon and the delete command of onload guard the call the
   same way the run triggers do. -/
def triggerDelete (s : ChatAppendSettings) (env : Env) (st : PluginState) : DeleteResult :=
  if st.isRunning then
    { outcome := DeleteOutcome.alreadyActive, state := st, doc := env.activeNote
      statusHistory := [], notices := ["Already running…"] }
  else
    deleteInsightsOnActiveNote s env st

/- The Delete insights button of the settings tab calls the workflow directly,
   with no isRunning check. -/
def settingsTabDeleteClick (s : ChatAppendSettings) (env : Env) (st : PluginState) :
    DeleteResult :=
  deleteInsightsOnActiveNote s env st

/- The model dropdown onChange handler of the settings tab: store the chosen
   value, clear customModel when switching away from the Custom sentinel, and
   always call saveSettings. -/
structure ModelChangeResult where
  settings : ChatAppendSettings
  saved : Bool
deriving DecidableEq, Repr

def onModelDropdownChange (s : ChatAppendSettings) (v : String) : ModelChangeResult :=
  let s1 := { s with model := v }
  let s2 := if v ≠ "Custom…" then { s1 with customModel := "" } else s1
  { settings := s2, saved := true }

/- The distinguishing status bar text each failure path of the run workflow
   sets before the cleanup resets the status to idle. -/
def errorStatusOf : RunOutcome → String
  | RunOutcome.promptFileNotFound => "Chat Append: error (prompt file)"
  | RunOutcome.missingApiKey => "Chat Append: error (no API key)"
  | RunOutcome.missingModel => "Chat Append: error (no model)"
  | RunOutcome.requestFailed => "Chat Append: error (request)"
  | RunOutcome.unexpectedError => "Chat Append: error (see console)"
  | _ => ""

/- Concrete fixtures used by witnesses and counterexamples below. -/

def okData : ApiData :=
  { output_text := some "Out", output := none, stringified := "SER" }

def errData : ApiData :=
  { output_text := none, output := none, stringified := "ERR" }

def baseSettings : ChatAppendSettings :=
  { openaiApiKey := "sk-test", model := "gpt-4o-mini", customModel := ""
    promptMode := PromptMode.inline, inlinePrompt := "Summarize."
    promptFilePath := "Prompts/prompt.md", addHeader := true
    headerText := "## Insights", maxOutputTokens := 800 }

def baseEnv : Env :=
  { activeNote := some "Note body", promptFileExists := true
    promptFileContent := "File prompt"
    fetchResult := FetchOutcome.respond 200 okData, confirmDelete := true }

def c1Settings : ChatAppendSettings :=
  { baseSettings with model := "Custom…", customModel := "   " }

def c1Env : Env :=
  { baseEnv with fetchResult := FetchOutcome.respond 400 errData }

def c2Env : Env :=
  { baseEnv with activeNote := some "A\nB\n## Insights\nC\nD" }

def c2wEnv : Env :=
  { baseEnv with activeNote := some "Plain note, no insights." }

def c3Settings : ChatAppendSettings :=
  { baseSettings with openaiApiKey := "" }

def c5Env : Env :=
  { baseEnv with activeNote := some "A\nB\n## Insights\nC\nD" }

def c6Env : Env :=
  { baseEnv with fetchResult := FetchOutcome.respond 500 errData }

def c7Env : Env :=
  { baseEnv with activeNote := none }

def c8Partial : PartialSettings :=
  { model := some "o3-mini", maxOutputTokens := some 1200 }

def c9Data : ApiData :=
  { output_text := some ""
    output := some [{ content := some [{ text := some "real" }] }]
    stringified := "SER" }

def c9wData : ApiData :=
  { output_text := none
    output := some [{ content := some [{ text := some "nested text" }] }]
    stringified := "SER" }

/- Helper lemmas about the deletion pattern matcher. -/

/- A position where the pattern matches carries the header verbatim. -/
theorem matchFrom_occurs {h : List Char} :
    ∀ {l : List Char}, matchFrom h l = true → h <:+: l := by
  intro l
  induction l with
  | nil => intro hm; simp [matchFrom] at hm
  | cons c cs ih =>
      intro hm
      rw [matchFrom] at hm
      rcases Bool.or_eq_true_iff.mp hm with h1 | h2
      · exact (List.isPrefixOf_iff_prefix.mp (Bool.and_eq_true_iff.mp h1).1).isInfix
      · exact List.infix_cons (ih (Bool.and_eq_true_iff.mp h2).2)

/- If the leftmost-match search succeeds, the header occurs verbatim. -/
theorem findMatchStart_occurs {h : List Char} :
    ∀ {l : List Char} {i : Nat}, findMatchStart h l = some i → h <:+: l := by
  intro l
  induction l with
  | nil => intro i hi; simp [findMatchStart] at hi
  | cons c cs ih =>
      intro i hi
      rw [findMatchStart] at hi
      split at hi
      · exact matchFrom_occurs (by assumption)
      · rcases Option.map_eq_some'.mp hi with ⟨j, hj, _⟩
        exact List.infix_cons (ih hj)

/- pattern.test succeeding means the trimmed header is a verbatim substring
   of the document content. -/
theorem patternTest_occurs {hd content : String} (h : patternTest hd content = true) :
    hd.data <:+: content.data := by
  unfold patternTest at h
  rcases Option.isSome_iff_exists.mp h with ⟨i, hi⟩
  exact findMatchStart_occurs hi

/- buildBlock written with the optional header factored out. -/
theorem buildBlock_eq (b : Bool) (h r : String) :
    buildBlock b h r = "\n\n" ++ ((if b then h ++ "\n" else "") ++ (r ++ "\n")) := by
  cases b <;> simp [buildBlock, String.append_assoc]

/-- C1: at the failing input (model is the Custom sentinel, customModel blank)
the code resolves the model to the sentinel itself rather than the empty
string, the run does not terminate with the missing-model failure, and the
network request is issued carrying the sentinel as the model id; with a
non-blank customModel the resolved model is its trimmed value. -/
theorem c1_sentinel_reaches_request :
    resolveModel c1Settings = "Custom…" ∧
    (runOnActiveNote c1Settings c1Env idleState).outcome ≠ RunOutcome.missingModel ∧
    (runOnActiveNote c1Settings c1Env idleState).fetchCalls =
      [{ model := "Custom…", systemPrompt := "Summarize.", userContent := "Note body"
         maxTokens := 800 }] ∧
    resolveModel { c1Settings with customModel := "  my-model  " } = "my-model" := by
  decide

/-- C2 counterexample: on document content A, B, header line, C, D the
confirmed deletion leaves "A\nB", not "A\nB\n" as the claim states: the
optional leading newline of the pattern also consumes the newline that
precedes the header line. -/
theorem c2_counterexample :
    (deleteInsightsOnActiveNote baseSettings c2Env idleState).outcome =
      DeleteOutcome.deleted ∧
    (deleteInsightsOnActiveNote baseSettings c2Env idleState).doc ≠ some "A\nB\n" := by
  decide

/-- C2 (amended): on the example document the confirmed deletion leaves
exactly "A\nB" (the newline before the header is removed together with the
header and everything after it); and whenever the trimmed headerText does not
occur verbatim in the document, the deletion reports that no insights were
found and the content is unchanged. -/
theorem c2_delete_truncation :
    (deleteInsightsOnActiveNote baseSettings c2Env idleState).outcome =
      DeleteOutcome.deleted ∧
    (deleteInsightsOnActiveNote baseSettings c2Env idleState).doc = some "A\nB" ∧
    ∀ (s : ChatAppendSettings) (env : Env) (st : PluginState) (content : String),
      env.activeNote = some content →
      ¬ ((jsTrim s.headerText).data <:+: content.data) →
      (deleteInsightsOnActiveNote s env st).outcome = DeleteOutcome.noInsightsFound ∧
      (deleteInsightsOnActiveNote s env st).doc = some content := by
  refine ⟨by decide, by decide, ?_⟩
  intro s env st content hnote hinf
  have hpt : patternTest (jsTrim s.headerText) content = false := by
    cases hp : patternTest (jsTrim s.headerText) content with
    | false => rfl
    | true => exact absurd (patternTest_occurs hp) hinf
  have hne : ¬ (jsTrim s.headerText = "") := by
    intro h0
    apply hinf
    rw [h0]
    exact List.nil_infix
  unfold deleteInsightsOnActiveNote
  rw [hnote]
  simp only [hne, if_false, hpt, if_true]
  exact ⟨trivial, trivial⟩

/-- C2 witness: a document without the header is reported as having no
insights section and is left unchanged. -/
theorem c2_delete_truncation_witness :
    (deleteInsightsOnActiveNote baseSettings c2wEnv idleState).outcome =
      DeleteOutcome.noInsightsFound ∧
    (deleteInsightsOnActiveNote baseSettings c2wEnv idleState).doc =
      some "Plain note, no insights." :=
  c2_delete_truncation.2.2 baseSettings c2wEnv idleState "Plain note, no insights."
    rfl (by decide)

/-- C3 counterexample: after the missing-credential failure the operation
returns with the status text reset to the idle text by the guaranteed cleanup,
so the error indicator does not remain displayed as the claim states. -/
theorem c3_counterexample :
    (runOnActiveNote c3Settings baseEnv idleState).outcome = RunOutcome.missingApiKey ∧
    (runOnActiveNote c3Settings baseEnv idleState).state.statusText = "Chat Append: idle" ∧
    ("Chat Append: idle" : String) ≠ "Chat Append: error (no API key)" := by
  decide

/-- C3 (amended): on every failure path entered after the run flag was set,
the status text is set to an error indicator naming the failure category, but
the guaranteed-cleanup region then clears the run flag, restores the idle icon
and resets the status text to idle, so at return the state is the idle state
and only the status history retains the error indicator. -/
theorem c3_failure_cleanup :
    ∀ (s : ChatAppendSettings) (env : Env) (st : PluginState),
      (runOnActiveNote s env st).outcome ≠ RunOutcome.noActiveNote →
      (runOnActiveNote s env st).outcome ≠ RunOutcome.success →
      errorStatusOf (runOnActiveNote s env st).outcome ∈
        (runOnActiveNote s env st).statusHistory ∧
      (runOnActiveNote s env st).state = idleState ∧
      (runOnActiveNote s env st).state.isRunning = false := by
  intro s env st h1 h2
  obtain ⟨note, pfe, pfc, fr, cd⟩ := env
  cases note with
  | none => simp [runOnActiveNote] at h1
  | some original =>
      cases fr with
      | throws =>
          simp only [runOnActiveNote] at h1 h2 ⊢
          split_ifs at h1 h2 ⊢ <;> simp_all [errorStatusOf, idleState]
      | respond status data =>
          simp only [runOnActiveNote] at h1 h2 ⊢
          split_ifs at h1 h2 ⊢ <;> simp_all [errorStatusOf, idleState]

/-- C3 witness: the missing-credential failure at a concrete input. -/
theorem c3_failure_cleanup_witness :
    errorStatusOf (runOnActiveNote c3Settings baseEnv loadingState).outcome ∈
      (runOnActiveNote c3Settings baseEnv loadingState).statusHistory ∧
    (runOnActiveNote c3Settings baseEnv loadingState).state = idleState ∧
    (runOnActiveNote c3Settings baseEnv loadingState).state.isRunning = false :=
  c3_failure_cleanup c3Settings baseEnv loadingState (by decide) (by decide)

/-- C4: the appended block is exactly two newlines, then (only when addHeader
is true) the headerText followed by one newline, then the result text, then
one trailing newline; with addHeader and the default header on result "Hello"
the block is the newline-header-newline-Hello-newline string, and without the
header the block keeps just the two leading newlines and trailing newline. -/
theorem c4_append_block :
    buildBlock true "## Insights" "Hello" = "\n\n## Insights\nHello\n" ∧
    buildBlock false "## Insights" "Hello" = "\n\nHello\n" ∧
    ∀ (s : ChatAppendSettings) (env : Env) (st : PluginState) (original : String)
      (status : Nat) (data : ApiData),
      env.activeNote = some original →
      env.fetchResult = FetchOutcome.respond status data →
      (runOnActiveNote s env st).outcome = RunOutcome.success →
      (runOnActiveNote s env st).doc =
        some (original ++
          ("\n\n" ++ ((if s.addHeader then s.headerText ++ "\n" else "") ++
            (extractResultText data ++ "\n")))) := by
  refine ⟨by decide, by decide, ?_⟩
  intro s env st original status data hnote hfetch hsucc
  obtain ⟨note, pfe, pfc, fr, cd⟩ := env
  simp only at hnote hfetch
  subst hnote hfetch
  simp only [runOnActiveNote] at hsucc ⊢
  split_ifs at hsucc ⊢ <;> simp_all [buildBlock_eq]

/-- C4 witness: a successful run at a concrete input appends the block. -/
theorem c4_append_block_witness :
    (runOnActiveNote baseSettings baseEnv idleState).doc =
      some ("Note body" ++
        ("\n\n" ++ ((if baseSettings.addHeader then baseSettings.headerText ++ "\n" else "") ++
          (extractResultText okData ++ "\n")))) :=
  c4_append_block.2.2 baseSettings baseEnv idleState "Note body" 200 okData
    rfl rfl (by decide)

/-- C5 counterexample: the Delete insights button of the settings tab invokes
the delete workflow without the run-flag check, so while the flag is set (a
run in flight) the delete workflow still executes and mutates the document,
refuting the claim that at most one workflow is ever in flight. -/
theorem c5_counterexample :
    loadingState.isRunning = true ∧
    (settingsTabDeleteClick baseSettings c5Env loadingState).outcome =
      DeleteOutcome.deleted ∧
    (settingsTabDeleteClick baseSettings c5Env loadingState).doc ≠ c5Env.activeNote := by
  decide

/-- C5 (amended): while the run flag is set, triggering the run workflow via
the ribbon icon or the command, or the delete workflow via its ribbon icon or
command, issues no network call, leaves the document and the plugin state
unchanged and is rejected immediately with the already-running notice; only
the settings-tab delete button bypasses this guard. -/
theorem c5_guarded_triggers :
    ∀ (s : ChatAppendSettings) (env : Env) (st : PluginState),
      st.isRunning = true →
      (triggerRun s env st).fetchCalls = [] ∧
      (triggerRun s env st).doc = env.activeNote ∧
      (triggerRun s env st).state = st ∧
      (triggerRun s env st).notices = ["Already running…"] ∧
      (triggerDelete s env st).doc = env.activeNote ∧
      (triggerDelete s env st).state = st ∧
      (triggerDelete s env st).notices = ["Already running…"] := by
  intro s env st h
  simp [triggerRun, triggerDelete, h]

/-- C5 witness: a second trigger during an in-flight run at a concrete
input. -/
theorem c5_guarded_triggers_witness :
    (triggerRun baseSettings baseEnv loadingState).fetchCalls = [] ∧
    (triggerRun baseSettings baseEnv loadingState).doc = baseEnv.activeNote ∧
    (triggerRun baseSettings baseEnv loadingState).state = loadingState ∧
    (triggerRun baseSettings baseEnv loadingState).notices = ["Already running…"] ∧
    (triggerDelete baseSettings baseEnv loadingState).doc = baseEnv.activeNote ∧
    (triggerDelete baseSettings baseEnv loadingState).state = loadingState ∧
    (triggerDelete baseSettings baseEnv loadingState).notices = ["Already running…"] :=
  c5_guarded_triggers baseSettings baseEnv loadingState rfl

/-- C6: when the network responds with a status outside the 2xx range, the
operation never mutates the document (the content at return equals the content
before the call), the run flag is false after the operation returns, and a
failure notice is shown. -/
theorem c6_non2xx_no_mutation :
    ∀ (s : ChatAppendSettings) (env : Env) (st : PluginState) (status : Nat) (data : ApiData),
      st.isRunning = false →
      env.fetchResult = FetchOutcome.respond status data →
      ¬ (200 ≤ status ∧ status ≤ 299) →
      (runOnActiveNote s env st).doc = env.activeNote ∧
      (runOnActiveNote s env st).state.isRunning = false ∧
      (runOnActiveNote s env st).notices ≠ [] := by
  intro s env st status data hrun hfetch hbad
  obtain ⟨note, pfe, pfc, fr, cd⟩ := env
  simp only at hfetch
  subst hfetch
  cases note with
  | none => simp [runOnActiveNote, hrun]
  | some original =>
      simp only [runOnActiveNote]
      split_ifs <;> simp_all [idleState]

/-- C6 witness: an HTTP 500 response at a concrete input. -/
theorem c6_non2xx_no_mutation_witness :
    (runOnActiveNote baseSettings c6Env idleState).doc = c6Env.activeNote ∧
    (runOnActiveNote baseSettings c6Env idleState).state.isRunning = false ∧
    (runOnActiveNote baseSettings c6Env idleState).notices ≠ [] :=
  c6_non2xx_no_mutation baseSettings c6Env idleState 500 errData rfl rfl (by decide)

/-- C7 counterexample: with no active document and the run flag already set,
the trigger reports the already-running failure, not the no-active-document
failure the claim prescribes: the re-entrancy guard of the trigger callbacks
runs before the workflow ever looks for an active document. -/
theorem c7_counterexample :
    c7Env.activeNote = none ∧
    loadingState.isRunning = true ∧
    (triggerRun baseSettings c7Env loadingState).outcome = RunOutcome.alreadyActive ∧
    (triggerRun baseSettings c7Env loadingState).notices = ["Already running…"] ∧
    (triggerRun baseSettings c7Env loadingState).notices ≠ ["No active note"] := by
  decide

/-- C7 (amended): the preconditions are checked in the order AlreadyRunning
(at the trigger callback, before any other check), then NoActiveDocument, then
PromptFileNotFound, then MissingCredential, then MissingModel, each a distinct
terminal outcome; a set run flag wins over every later check and the prompt
file check wins over the credential and model checks. -/
theorem c7_check_order :
    ∀ (s : ChatAppendSettings) (env : Env) (st : PluginState),
      (st.isRunning = true →
        (triggerRun s env st).outcome = RunOutcome.alreadyActive ∧
        (triggerRun s env st).fetchCalls = []) ∧
      (st.isRunning = false → env.activeNote = none →
        (triggerRun s env st).outcome = RunOutcome.noActiveNote) ∧
      (∀ original, st.isRunning = false → env.activeNote = some original →
        ((s.promptMode = PromptMode.file ∧ env.promptFileExists = false) →
          (triggerRun s env st).outcome = RunOutcome.promptFileNotFound) ∧
        (¬ (s.promptMode = PromptMode.file ∧ env.promptFileExists = false) →
          s.openaiApiKey = "" →
          (triggerRun s env st).outcome = RunOutcome.missingApiKey) ∧
        (¬ (s.promptMode = PromptMode.file ∧ env.promptFileExists = false) →
          s.openaiApiKey ≠ "" → resolveModel s = "" →
          (triggerRun s env st).outcome = RunOutcome.missingModel)) := by
  intro s env st
  obtain ⟨note, pfe, pfc, fr, cd⟩ := env
  refine ⟨fun h => by simp [triggerRun, h], fun h hnote => ?_, fun original h hnote => ?_⟩
  · simp only at hnote
    subst hnote
    simp [triggerRun, h, runOnActiveNote]
  · simp only at hnote
    subst hnote
    refine ⟨fun hpf => ?_, fun hpf hkey => ?_, fun hpf hkey hmod => ?_⟩
    · obtain ⟨hpm, hpe⟩ := hpf
      simp only at hpe
      subst hpe
      simp [triggerRun, h, runOnActiveNote, hpm]
    · simp only [triggerRun, h, if_false, Bool.false_eq_true, runOnActiveNote]
      split_ifs <;> simp_all
    · cases fr <;>
        · simp only [triggerRun, h, if_false, Bool.false_eq_true, runOnActiveNote]
          split_ifs <;> simp_all

/-- C7 witness: a set run flag at a concrete input yields the already-running
outcome with no network call. -/
theorem c7_check_order_witness :
    (triggerRun baseSettings c7Env loadingState).outcome = RunOutcome.alreadyActive ∧
    (triggerRun baseSettings c7Env loadingState).fetchCalls = [] :=
  (c7_check_order baseSettings c7Env loadingState).1 rfl

/-- C8: loading with no persisted record yields exactly the defaults, and for
every partial persisted record each field present keeps its persisted value
while each absent field falls back to its default, so every field of the
result is defined. -/
theorem c8_load_merge :
    loadSettings none = DEFAULTS ∧
    ∀ (p : PartialSettings),
      ((∀ v, p.openaiApiKey = some v → (loadSettings (some p)).openaiApiKey = v) ∧
        (p.openaiApiKey = none → (loadSettings (some p)).openaiApiKey = DEFAULTS.openaiApiKey)) ∧
      ((∀ v, p.model = some v → (loadSettings (some p)).model = v) ∧
        (p.model = none → (loadSettings (some p)).model = DEFAULTS.model)) ∧
      ((∀ v, p.customModel = some v → (loadSettings (some p)).customModel = v) ∧
        (p.customModel = none → (loadSettings (some p)).customModel = DEFAULTS.customModel)) ∧
      ((∀ v, p.promptMode = some v → (loadSettings (some p)).promptMode = v) ∧
        (p.promptMode = none → (loadSettings (some p)).promptMode = DEFAULTS.promptMode)) ∧
      ((∀ v, p.inlinePrompt = some v → (loadSettings (some p)).inlinePrompt = v) ∧
        (p.inlinePrompt = none → (loadSettings (some p)).inlinePrompt = DEFAULTS.inlinePrompt)) ∧
      ((∀ v, p.promptFilePath = some v → (loadSettings (some p)).promptFilePath = v) ∧
        (p.promptFilePath = none →
          (loadSettings (some p)).promptFilePath = DEFAULTS.promptFilePath)) ∧
      ((∀ v, p.addHeader = some v → (loadSettings (some p)).addHeader = v) ∧
        (p.addHeader = none → (loadSettings (some p)).addHeader = DEFAULTS.addHeader)) ∧
      ((∀ v, p.headerText = some v → (loadSettings (some p)).headerText = v) ∧
        (p.headerText = none → (loadSettings (some p)).headerText = DEFAULTS.headerText)) ∧
      ((∀ v, p.maxOutputTokens = some v → (loadSettings (some p)).maxOutputTokens = v) ∧
        (p.maxOutputTokens = none →
          (loadSettings (some p)).maxOutputTokens = DEFAULTS.maxOutputTokens)) := by
  refine ⟨rfl, fun p => ?_⟩
  refine ⟨⟨?_, ?_⟩, ⟨?_, ?_⟩, ⟨?_, ?_⟩, ⟨?_, ?_⟩, ⟨?_, ?_⟩, ⟨?_, ?_⟩, ⟨?_, ?_⟩,
    ⟨?_, ?_⟩, ⟨?_, ?_⟩⟩ <;>
    first
      | (intro v hv; simp [loadSettings, hv])
      | (intro hv; simp [loadSettings, hv])

/-- C8 witness: a persisted record with only model and maxOutputTokens set
keeps those values and falls back to the default for the key. -/
theorem c8_load_merge_witness :
    (loadSettings (some c8Partial)).model = "o3-mini" ∧
    (loadSettings (some c8Partial)).openaiApiKey = DEFAULTS.openaiApiKey ∧
    (loadSettings (some c8Partial)).maxOutputTokens = 1200 :=
  ⟨(c8_load_merge.2 c8Partial).2.1.1 "o3-mini" rfl,
    (c8_load_merge.2 c8Partial).1.2 rfl,
    (c8_load_merge.2 c8Partial).2.2.2.2.2.2.2.2.1 1200 rfl⟩

/-- C9 counterexample: a present but empty top-level output_text is not
skipped: the extracted result is the empty string although the next strategy
would yield a non-empty one, refuting the claim that a strategy yielding the
empty string is skipped in favour of the next. -/
theorem c9_counterexample :
    extractResultText c9Data = "" ∧
    nestedOutputText c9Data = some "real" ∧
    ("" : String) ≠ "real" := by
  decide

/-- C9 (amended): the result text is extracted by an ordered fallback that
tries each strategy until one yields a present (non-null, non-undefined)
value, the empty string included: output_text when present, else the nested
first-output first-content text when present, else the serialized response
body. -/
theorem c9_extraction_order :
    ∀ (d : ApiData),
      (∀ t, d.output_text = some t → extractResultText d = t) ∧
      (d.output_text = none →
        ∀ t, nestedOutputText d = some t → extractResultText d = t) ∧
      (d.output_text = none → nestedOutputText d = none →
        extractResultText d = d.stringified) := by
  intro d
  refine ⟨fun t ht => ?_, fun h0 t ht => ?_, fun h0 h1 => ?_⟩ <;>
    simp [extractResultText, *]

/-- C9 witness: with output_text absent the nested text is used. -/
theorem c9_extraction_order_witness :
    extractResultText c9wData = "nested text" :=
  (c9_extraction_order c9wData).2.1 rfl "nested text" rfl

/-- C10: choosing any model other than the Custom sentinel in the settings
dropdown stores the choice, clears customModel to the empty string, and
persists the settings. -/
theorem c10_dropdown_clears_custom :
    ∀ (s : ChatAppendSettings) (v : String),
      v ≠ "Custom…" →
      (onModelDropdownChange s v).settings.model = v ∧
      (onModelDropdownChange s v).settings.customModel = "" ∧
      (onModelDropdownChange s v).saved = true := by
  intro s v hv
  simp [onModelDropdownChange, hv]

/-- C10 witness: switching to a stock model discards the custom id. -/
theorem c10_dropdown_clears_custom_witness :
    (onModelDropdownChange c1Settings "gpt-4o").settings.model = "gpt-4o" ∧
    (onModelDropdownChange c1Settings "gpt-4o").settings.customModel = "" ∧
    (onModelDropdownChange c1Settings "gpt-4o").saved = true :=
  c10_dropdown_clears_custom c1Settings "gpt-4o" (by decide)

end AIInsights
